import Mathlib

/-!
Verification of the Atmel SAM3/SAM4/SAMx7x flash driver (src/target/sam3x.c).

The driver is embedded shallowly:
* pure register decoding (sam_flash_size, sam_sram_size, samx7x_parse_id)
  is translated directly;
* hardware I/O is made explicit: probe routines take the already-read
  identification-register values and an allocation oracle (the result of
  each successive calloc, in call order) and return a ProbeResult record
  of every mutation they perform on the target session; flash operations
  take the results of the sequencer calls they make (an oracle, in call
  order) and return their C result together with the list of hardware
  events they issue;
* machine integers are Nat with explicit mod where the C types truncate
  (uint16_t parameters are taken mod 2^16, uint32_t subtraction is u32_sub).
-/

/-- 32-bit subtraction as C computes it on uint32_t operands
(both operands are reduced mod 2^32 first, as any C value of that type is). -/
def u32_sub (a b : Nat) : Nat :=
  (a % 4294967296 + (4294967296 - b % 4294967296)) % 4294967296

/-- EEFC command register offset: EEFC_FCR(base) = base + 0x04. -/
def EEFC_FCR (base : Nat) : Nat := base + 0x04

/-- EEFC status register offset: EEFC_FSR(base) = base + 0x08. -/
def EEFC_FSR (base : Nat) : Nat := base + 0x08

/-- EEFC result register offset: EEFC_FRR(base) = base + 0x0C. -/
def EEFC_FRR (base : Nat) : Nat := base + 0x0C

/-- EEFC_FCR_FKEY: the fixed flash-command unlock key, 0x5A in the top byte. -/
def EEFC_FCR_FKEY : Nat := 0x5A <<< 24

/-- EEFC_FSR_FRDY: the ready bit of the status register. -/
def EEFC_FSR_FRDY : Nat := 1

/-- EEFC_FSR_ERROR: the error mask, FCMDE (bit 1) OR FLOCKE (bit 2). -/
def EEFC_FSR_ERROR : Nat := 2 ||| 4

/-- Flash-size decode from CIDR (sam_flash_size in the source): switch on
cidr & CHIPID_CIDR_NVPSIZ_MASK (0xF << 8); unknown codes return 0. -/
def sam_flash_size (cidr : Nat) : Nat :=
  let code := cidr &&& (0xF <<< 8)
  if code = 0x1 <<< 8 then 0x2000
  else if code = 0x2 <<< 8 then 0x4000
  else if code = 0x3 <<< 8 then 0x8000
  else if code = 0x5 <<< 8 then 0x10000
  else if code = 0x7 <<< 8 then 0x20000
  else if code = 0x9 <<< 8 then 0x40000
  else if code = 0xA <<< 8 then 0x80000
  else if code = 0xC <<< 8 then 0x100000
  else if code = 0xE <<< 8 then 0x200000
  else 0

/-- SRAM-size decode from CIDR (sam_sram_size in the source): switch on
cidr & CHIPID_CIDR_SRAMSIZ_MASK (0xF << 16); only codes 0xD (256K) and
0x2 (384K) are known, anything else returns 0. -/
def sam_sram_size (cidr : Nat) : Nat :=
  let code := cidr &&& (0xF <<< 16)
  if code = 0xD <<< 16 then 0x40000
  else if code = 0x2 <<< 16 then 0x60000
  else 0

/-- Decoded chip descriptor (struct samx7x_descr in the source). -/
structure samx7x_descr where
  product_code : Char
  product_id : Nat
  pins : Char
  ram_size : Nat
  flash_size : Nat
  density : Nat
  revision : Char
deriving DecidableEq

/-- samx7x_parse_id: pure decode of (CIDR, EXID) into a descriptor.
Every switch of the source is an if-chain here; unmatched cases leave the
zero-initialized value (Char.ofNat 0 resp. 0), as the C zero initializer does. -/
def samx7x_parse_id (cidr exid : Nat) : samx7x_descr :=
  let arch := cidr &&& (0xFF <<< 20)
  let pc :=
    if arch = 0x10 <<< 20 then 'E'
    else if arch = 0x11 <<< 20 then 'S'
    else if arch = 0x12 <<< 20 then 'V'
    else if arch = 0x13 <<< 20 then 'V'
    else Char.ofNat 0
  let pid :=
    if arch = 0x10 <<< 20 then 70
    else if arch = 0x11 <<< 20 then 70
    else if arch = 0x12 <<< 20 then 71
    else if arch = 0x13 <<< 20 then 70
    else 0
  let ver := exid &&& 0x1F
  let rev := if ver = 0 then 'A' else if ver = 1 then 'B' else '_'
  let pn := exid &&& 0x3
  let pins :=
    if pn = 2 then 'Q' else if pn = 1 then 'N' else if pn = 0 then 'J' else Char.ofNat 0
  let fs := sam_flash_size cidr
  let dens :=
    if fs = 0x200000 then 21
    else if fs = 0x100000 then 20
    else if fs = 0x80000 then 19
    else 0
  { product_code := pc, product_id := pid, pins := pins,
    ram_size := sam_sram_size cidr, flash_size := fs,
    density := dens, revision := rev }

/-- Zero-padded two-digit decimal rendering, the %02d of the variant sprintf. -/
def pad2 (n : Nat) : String := if n < 10 then "0" ++ toString n else toString n

/-- The variant label built by sprintf("SAM%c%02d%c%d%c", ...) in samx7x_probe. -/
def samVariantString (d : samx7x_descr) : String :=
  "SAM" ++ toString d.product_code ++ pad2 d.product_id ++ toString d.pins ++
    toString d.density ++ toString d.revision

/-- Record of every mutation a probe routine performs on the target session.
regions lists each registered flash region as (start, length) in registration
order (the remaining FlashRegion fields are family constants: blocksize and
buf_size 256 for SAM3, blocksize 4096 / buf_size 512 for SAM4, plus the EEFC
base and write opcode, none of which the claims mention). warnings counts
DEBUG_WARN diagnostics. decodedSize records the flash size decoded from the
identification register the probe matched on (0 when none matched); it is
specification instrumentation, not a mutation. -/
structure ProbeResult where
  ok : Bool
  regions : List (Nat × Nat)
  ram : Option (Nat × Nat)
  commandsAdded : Bool
  driver : Option String
  storageSet : Bool
  warnings : Nat
  decodedSize : Nat
deriving DecidableEq

/-- The result of a probe that recognizes nothing: false, and no mutation. -/
def noProbe : ProbeResult :=
  { ok := false, regions := [], ram := none, commandsAdded := false,
    driver := none, storageSet := false, warnings := 0, decodedSize := 0 }

/-- First switch of sam3x_probe: cidr & (ARCH_MASK | EPROC_MASK) against
SAM3XxC/SAM3XxE/SAM3XxG (0x84/0x85/0x86 << 20), each with EPROC_CM3 (0x3 << 5). -/
def sam3xMatchX (c : Nat) : Bool :=
  let k := c &&& ((0xFF <<< 20) ||| (0x7 <<< 5))
  k == ((0x84 <<< 20) ||| (0x3 <<< 5)) || k == ((0x85 <<< 20) ||| (0x3 <<< 5)) ||
    k == ((0x86 <<< 20) ||| (0x3 <<< 5))

/-- Second switch of sam3x_probe, SAM3N/SAM3S group: arch codes
0x93/0x94/0x95 (SAM3N) and 0x88/0x89/0x8A (SAM3S), each with EPROC_CM3. -/
def sam3xMatchNS (c : Nat) : Bool :=
  let k := c &&& ((0xFF <<< 20) ||| (0x7 <<< 5))
  k == ((0x93 <<< 20) ||| (0x3 <<< 5)) || k == ((0x94 <<< 20) ||| (0x3 <<< 5)) ||
    k == ((0x95 <<< 20) ||| (0x3 <<< 5)) || k == ((0x88 <<< 20) ||| (0x3 <<< 5)) ||
    k == ((0x89 <<< 20) ||| (0x3 <<< 5)) || k == ((0x8A <<< 20) ||| (0x3 <<< 5))

/-- Second switch of sam3x_probe, SAM3U group: arch 0x80/0x81 with EPROC_CM3. -/
def sam3xMatchU (c : Nat) : Bool :=
  let k := c &&& ((0xFF <<< 20) ||| (0x7 <<< 5))
  k == ((0x80 <<< 20) ||| (0x3 <<< 5)) || k == ((0x81 <<< 20) ||| (0x3 <<< 5))

/-- Second switch of sam3x_probe, SAM4S group: arch 0x88/0x89/0x8A/0x99/0x9A,
each with EPROC_CM4 (0x7 << 5). -/
def sam3xMatch4S (c : Nat) : Bool :=
  let k := c &&& ((0xFF <<< 20) ||| (0x7 <<< 5))
  k == ((0x88 <<< 20) ||| (0x7 <<< 5)) || k == ((0x89 <<< 20) ||| (0x7 <<< 5)) ||
    k == ((0x8A <<< 20) ||| (0x7 <<< 5)) || k == ((0x99 <<< 20) ||| (0x7 <<< 5)) ||
    k == ((0x9A <<< 20) ||| (0x7 <<< 5))

/-- sam3x_probe: cidr1 and cidr2 are the values read from SAM3X_CHIPID_CIDR
(0x400E0940) and SAM34NSU_CHIPID_CIDR (0x400E0740); allocs gives the outcome of
the n-th calloc attempted during this probe (sam3_add_flash / sam4_add_flash
each attempt one; a failed one skips its region after a DEBUG_WARN, which
warnings counts). All regions are (start, length) in registration order. -/
def sam3x_probe (cidr1 cidr2 : Nat) (allocs : Nat → Bool) : ProbeResult :=
  let size1 := sam_flash_size cidr1
  if sam3xMatchX cidr1 then
    { ok := true,
      regions := (if allocs 0 then [(0x80000, size1 / 2)] else []) ++
                 (if allocs 1 then [(0x80000 + size1 / 2, size1 / 2)] else []),
      ram := some (0x20000000, 0x200000),
      commandsAdded := true,
      driver := some "Atmel SAM3X",
      storageSet := false,
      warnings := (if allocs 0 then 0 else 1) + (if allocs 1 then 0 else 1),
      decodedSize := size1 }
  else
    let size2 := sam_flash_size cidr2
    if sam3xMatchNS cidr2 then
      { ok := true,
        regions := if allocs 0 then [(0x400000, size2)] else [],
        ram := some (0x20000000, 0x200000),
        commandsAdded := true,
        driver := some "Atmel SAM3N/S",
        storageSet := false,
        warnings := if allocs 0 then 0 else 1,
        decodedSize := size2 }
    else if sam3xMatchU cidr2 then
      { ok := true,
        regions := (if allocs 0 then [(0x80000, min size2 0x80000)] else []) ++
                   (if 0x80000 ≤ size2 then
                      (if allocs 1 then [(0x100000, 0x80000)] else []) else []),
        ram := some (0x20000000, 0x200000),
        commandsAdded := true,
        driver := some "Atmel SAM3U",
        storageSet := false,
        warnings := (if allocs 0 then 0 else 1) +
          (if 0x80000 ≤ size2 then (if allocs 1 then 0 else 1) else 0),
        decodedSize := size2 }
    else if sam3xMatch4S cidr2 then
      { ok := true,
        regions :=
          if size2 ≤ 0x80000 then
            (if allocs 0 then [(0x400000, size2)] else [])
          else
            (if allocs 0 then [(0x400000, size2 / 2)] else []) ++
            (if allocs 1 then [(0x400000 + size2 / 2, size2 / 2)] else []),
        ram := some (0x20000000, 0x400000),
        commandsAdded := true,
        driver := some "Atmel SAM4S",
        storageSet := false,
        warnings :=
          if size2 ≤ 0x80000 then (if allocs 0 then 0 else 1)
          else (if allocs 0 then 0 else 1) + (if allocs 1 then 0 else 1),
        decodedSize := size2 }
    else noProbe

/-- The architecture switch of samx7x_probe: SAME70 (0x10), SAMS70 (0x11),
SAMV71 (0x12), SAMV70 (0x13), each shifted into the arch field. -/
def samx7xArchMatch (c : Nat) : Bool :=
  let a := c &&& (0xFF <<< 20)
  a == 0x10 <<< 20 || a == 0x11 <<< 20 || a == 0x12 <<< 20 || a == 0x13 <<< 20

/-- samx7x_probe: cidr is the value read from SAM3X_CHIPID_CIDR; exidRaw is the
value the EXID read would return, consumed only when the EXT bit (bit 31) of
cidr is set (otherwise exid stays 0, as in the source). allocs 0 is the
sam_flash calloc inside sam4_add_flash, allocs 1 the priv_storage calloc; each
failure emits one DEBUG_WARN. Note the source returns true/false based only on
the arch switch and the priv_storage calloc: region registration, RAM
registration and command registration happen before the priv_storage check. -/
def samx7x_probe (cidr exidRaw : Nat) (allocs : Nat → Bool) : ProbeResult :=
  let exid := if cidr &&& (1 <<< 31) ≠ 0 then exidRaw else 0
  if samx7xArchMatch cidr then
    let descr := samx7x_parse_id cidr exid
    { ok := allocs 1,
      regions := if allocs 0 then [(0x00400000, descr.flash_size)] else [],
      ram := some (0x20400000, descr.ram_size),
      commandsAdded := true,
      driver := if allocs 1 then some (samVariantString descr) else none,
      storageSet := allocs 1,
      warnings := (if allocs 0 then 0 else 1) + (if allocs 1 then 0 else 1),
      decodedSize := descr.flash_size }
  else noProbe

/-- Hardware events issued by the flash operations: a raw 32-bit register
write, a 32-bit register read, a bulk memory write (destination, length), and
a call of the sequencer sam3x_flash_cmd with (eefc base, opcode, argument);
the argument records the uint16_t value the callee receives, i.e. the
caller's value reduced mod 2^16. -/
inductive HwEvent where
  | write32 (addr val : Nat)
  | read32 (addr : Nat)
  | memWrite (dest len : Nat)
  | cmd (base opcode arg : Nat)
deriving DecidableEq

/-- The command word sam3x_flash_cmd writes to EEFC_FCR:
EEFC_FCR_FKEY | cmd | ((uint32_t)arg << 8). The mod operations express the
parameter types (cmd : uint8_t, arg : uint16_t). -/
def commandWord (cmd arg : Nat) : Nat :=
  EEFC_FCR_FKEY ||| (cmd % 256) ||| ((arg % 65536) <<< 8)

/-- One iteration of the sam3x_flash_cmd polling loop, as observed from the
environment: the value the EEFC_FSR read returned, and what
target_check_error would report (the source consults it only when the read
did not have FRDY set). -/
structure PollObs where
  fsr : Nat
  err : Bool
deriving DecidableEq

/-- The polling loop of sam3x_flash_cmd over a finite observation sequence:
read FSR; while FRDY is clear, consult target_check_error and return -1 when
it fires; once FRDY is seen, re-read FSR (the value final) and return
sr & EEFC_FSR_ERROR. none models exhausting the observations with the loop
still running (the source has no timeout). -/
def pollLoop : List PollObs → Nat → Option Int
  | [], _ => none
  | o :: rest, final =>
    if o.fsr &&& EEFC_FSR_FRDY ≠ 0 then some ((final &&& EEFC_FSR_ERROR : Nat) : Int)
    else if o.err then some (-1)
    else pollLoop rest final

/-- sam3x_flash_cmd: writes the command word to EEFC_FCR(base), then polls.
Returns the loop result paired with the hardware write it issued. -/
def sam3x_flash_cmd (base cmd arg : Nat) (obs : List PollObs) (final : Nat) :
    Option Int × List HwEvent :=
  (pollLoop obs final, [HwEvent.write32 (EEFC_FCR base) (commandWord cmd arg)])

/-- The erase loop of sam4_flash_erase. cmdRes gives the result of each
successive sam3x_flash_cmd call (the C int it returns); the recursion shifts
the oracle. Each iteration issues EEFC_FCR_FCMD_EPA (0x07) with argument
chunk | 0x1 (the int16_t local, received by the callee as uint16_t, hence
mod 2^16); a nonzero command result returns -1 at once; otherwise len is
reduced by the blocksize 4096 (SAM4_PAGE_SIZE * 8, the only blocksize
sam4_add_flash ever installs) or to zero, and chunk advances by 8. -/
def sam4_erase_loop (cmdRes : Nat → Int) (base chunk len : Nat) :
    Int × List HwEvent :=
  if len = 0 then (0, [])
  else
    let arg := (chunk ||| 1) % 65536
    if cmdRes 0 ≠ 0 then (-1, [HwEvent.cmd base 7 arg])
    else if 4096 < len then
      let r := sam4_erase_loop (fun j => cmdRes (j + 1)) base (chunk + 8) (len - 4096)
      (r.1, HwEvent.cmd base 7 arg :: r.2)
    else (0, [HwEvent.cmd base 7 arg])
termination_by len
decreasing_by omega

/-- sam4_flash_erase: base is the region's eefc_base, start the region start;
the starting chunk is the uint32 offset addr - start divided by
SAM4_PAGE_SIZE (512). -/
def sam4_flash_erase (base start addr len : Nat) (cmdRes : Nat → Int) :
    Int × List HwEvent :=
  sam4_erase_loop cmdRes base (u32_sub addr start / 512) len

/-- sam3_flash_erase: the SAM3 families have no discrete page erase; the
function body only voids its arguments and returns 0 - no hardware event. -/
def sam3_flash_erase (addr len : Nat) : Int × List HwEvent :=
  (0, [])

/-- sam3x_flash_write: stage the buffer at dest with target_mem_write, then
issue the region's write_cmd once with argument (dest - start) / buf_size
(uint32 arithmetic, received as uint16_t); return -1 when the sequencer
result is nonzero, else 0. cmdRes is that sequencer result. -/
def sam3x_flash_write (base start bufSize writeCmd dest len : Nat)
    (cmdRes : Int) : Int × List HwEvent :=
  let chunk := u32_sub dest start / bufSize
  ((if cmdRes ≠ 0 then -1 else 0),
   [HwEvent.memWrite dest len, HwEvent.cmd base writeCmd (chunk % 65536)])

/-- Console output of the command handlers: the gpnvm_set usage message
("usage: monitor gpnvm_set <bit> <val>") or the GPNVM value report
("GPNVM: 0x%08X" applied to the EEFC_FRR value read). -/
inductive OutEvent where
  | usage
  | gpnvm (value : Nat)
deriving DecidableEq

/-- sam3x_flash_base: selects the EEFC base by strcmp on the driver label;
any label other than the four SAM3/SAM4 ones falls through to SAMX7X. -/
def sam3x_flash_base (driver : String) : Nat :=
  if driver = "Atmel SAM3X" then 0x400E0A00
  else if driver = "Atmel SAM3U" then 0x400E0800
  else if driver = "Atmel SAM4S" then 0x400E0A00
  else if driver = "Atmel SAM3N/S" then 0x400E0A00
  else 0x400E0C00

/-- sam3x_cmd_gpnvm_get: issues EEFC_FCR_FCMD_GGPB (0x0D) with argument 0,
ignores the sequencer result (cmdRes is what that call returned - the source
never inspects it), reads EEFC_FRR and prints the value, and returns true. -/
def sam3x_cmd_gpnvm_get (driver : String) (cmdRes : Int) (frr : Nat) :
    Bool × List HwEvent × List OutEvent :=
  let base := sam3x_flash_base driver
  (true, [HwEvent.cmd base 0x0D 0, HwEvent.read32 (EEFC_FRR base)],
   [OutEvent.gpnvm frr])

/-- sam3x_cmd_gpnvm_set: argc counts the command name, so exactly two user
arguments means argc = 3; otherwise print the usage message and return false
with no hardware access. With argc = 3, bit and value are the atol decodes of
the two arguments; a nonzero value selects SGPB (0x0B), zero selects CGPB
(0x0C); the command is issued with bit as argument (uint16_t), its result
(cmdRes) is ignored, then sam3x_cmd_gpnvm_get runs (cmdRes2, frr are that
call's oracle inputs) and the handler returns true. -/
def sam3x_cmd_gpnvm_set (driver : String) (argc bit value : Nat)
    (cmdRes cmdRes2 : Int) (frr : Nat) : Bool × List HwEvent × List OutEvent :=
  let base := sam3x_flash_base driver
  if argc ≠ 3 then (false, [], [OutEvent.usage])
  else
    let cmd := if value ≠ 0 then 0x0B else 0x0C
    let g := sam3x_cmd_gpnvm_get driver cmdRes2 frr
    (true, HwEvent.cmd base cmd (bit % 65536) :: g.2.1, g.2.2)

/-- Sum of the lengths of a (start, length) region list. -/
def sumLens (rs : List (Nat × Nat)) : Nat := (rs.map Prod.snd).sum

/-- Each region starts exactly where the previous one ends. -/
def contiguousB : List (Nat × Nat) → Bool
  | [] => true
  | [_] => true
  | a :: b :: t => b.1 == a.1 + a.2 && contiguousB (b :: t)

/-- Region start addresses are strictly increasing in list order. -/
def strictAscB : List (Nat × Nat) → Bool
  | [] => true
  | [_] => true
  | a :: b :: t => a.1 < b.1 && strictAscB (b :: t)

/-- Index of the first sequencer call (among the first n) whose result is
nonzero, in the claim's words the first command failure. -/
def firstFail (cmdRes : Nat → Int) : Nat → Option Nat
  | 0 => none
  | n + 1 =>
    if cmdRes 0 ≠ 0 then some 0
    else (firstFail (fun j => cmdRes (j + 1)) n).map (· + 1)

/-! Helper lemmas shared by the claim theorems. -/

/-- C uint32 subtraction coincides with Nat subtraction when in range. -/
theorem u32_sub_eq {a b : Nat} (h1 : b ≤ a) (h2 : a < 2 ^ 32) :
    u32_sub a b = a - b := by
  have h32 : (2 : Nat) ^ 32 = 4294967296 := by norm_num
  rw [h32] at h2
  unfold u32_sub
  omega

/-- sam_flash_size only returns one of the ten decoded values. -/
theorem sam_flash_size_cases (c : Nat) :
    sam_flash_size c = 0 ∨ sam_flash_size c = 0x2000 ∨ sam_flash_size c = 0x4000 ∨
    sam_flash_size c = 0x8000 ∨ sam_flash_size c = 0x10000 ∨
    sam_flash_size c = 0x20000 ∨ sam_flash_size c = 0x40000 ∨
    sam_flash_size c = 0x80000 ∨ sam_flash_size c = 0x100000 ∨
    sam_flash_size c = 0x200000 := by
  unfold sam_flash_size
  dsimp only
  split_ifs <;> omega

/-- C7: on the SAM3 families, erase is a deliberate no-op: for every address
and length, sam3_flash_erase returns success (0) and issues no hardware
event whatsoever - zero sequencer calls, zero memory accesses. -/
theorem sam3_erase_noop_spec (addr len : Nat) :
    sam3_flash_erase addr len = (0, []) := rfl

/-- C3: for every 8-bit opcode cmd and every argument arg, the word
sam3x_flash_cmd writes to the command register EEFC_FCR(base) is
(0x5A << 24) | cmd | ((arg mod 2^16) << 8): the fixed unlock key in the top
byte, the opcode in bits 0-7, and the argument truncated to 16 bits (by the
uint16_t parameter type, uniformly for all inputs) in bits 8-23. -/
theorem flash_cmd_word_spec (base cmd arg : Nat) (obs : List PollObs)
    (final : Nat) (h : cmd < 256) :
    (sam3x_flash_cmd base cmd arg obs final).2 =
      [HwEvent.write32 (EEFC_FCR base)
        ((0x5A <<< 24) ||| cmd ||| ((arg % 65536) <<< 8))] := by
  simp [sam3x_flash_cmd, commandWord, EEFC_FCR_FKEY, Nat.mod_eq_of_lt h]

/-- Witness for flash_cmd_word_spec at opcode 3, argument 0x12345. -/
theorem flash_cmd_word_spec_wit :
    (sam3x_flash_cmd 0x400E0A00 3 0x12345 [] 0).2 =
      [HwEvent.write32 (EEFC_FCR 0x400E0A00)
        ((0x5A <<< 24) ||| 3 ||| ((0x12345 % 65536) <<< 8))] :=
  flash_cmd_word_spec 0x400E0A00 3 0x12345 [] 0 (by decide)

/-- C2: for every sam3x_flash_cmd call, over any polling history pre in which
the ready bit stayed clear and the transport-error signal stayed clear: if
the next iteration still lacks the ready bit and the transport-error signal
fires, the call returns -1 immediately (whatever observations would follow);
otherwise, once an iteration shows the ready bit, the call re-reads the
status register (value final) and returns exactly final & EEFC_FSR_ERROR,
the command-error/lock-error mask - so a nonzero mask is reported as failure
even though the device reached ready. -/
theorem flash_cmd_poll_spec (base cmd arg : Nat) (pre : List PollObs)
    (o : PollObs) (rest : List PollObs) (final : Nat)
    (hpre : ∀ x ∈ pre, x.fsr &&& EEFC_FSR_FRDY = 0 ∧ x.err = false) :
    (o.fsr &&& EEFC_FSR_FRDY = 0 → o.err = true →
      (sam3x_flash_cmd base cmd arg (pre ++ o :: rest) final).1 = some (-1)) ∧
    (o.fsr &&& EEFC_FSR_FRDY ≠ 0 →
      (sam3x_flash_cmd base cmd arg (pre ++ o :: rest) final).1 =
        some ((final &&& EEFC_FSR_ERROR : Nat) : Int)) := by
  induction pre with
  | nil =>
    constructor
    · intro h1 h2
      simp [sam3x_flash_cmd, pollLoop, h1, h2]
    · intro h1
      simp [sam3x_flash_cmd, pollLoop, h1]
  | cons x xs ih =>
    have hx := hpre x (by simp)
    have ih2 := ih (fun y hy => hpre y (by simp [hy]))
    constructor
    · intro h1 h2
      have := ih2.1 h1 h2
      simpa [sam3x_flash_cmd, pollLoop, hx.1, hx.2] using this
    · intro h1
      have := ih2.2 h1
      simpa [sam3x_flash_cmd, pollLoop, hx.1, hx.2] using this

/-- Witness for flash_cmd_poll_spec: one quiet iteration, then a transport
error while not ready, returns -1. -/
theorem flash_cmd_poll_spec_wit :
    (sam3x_flash_cmd 0 0 0 ([⟨0, false⟩] ++ ⟨0, true⟩ :: []) 6).1 = some (-1) :=
  (flash_cmd_poll_spec 0 0 0 [⟨0, false⟩] ⟨0, true⟩ [] 6 (by decide)).1
    (by decide) (by decide)

/-- C9: sam3x_cmd_gpnvm_set with an argument count other than exactly two
user arguments (argc different from 3) prints the usage message, returns
false, and issues no hardware event at all. -/
theorem gpnvm_set_usage_spec (driver : String) (argc bit value : Nat)
    (cr cr2 : Int) (frr : Nat) (h : argc ≠ 3) :
    sam3x_cmd_gpnvm_set driver argc bit value cr cr2 frr =
      (false, [], [OutEvent.usage]) := by
  simp [sam3x_cmd_gpnvm_set, h]

/-- Witness for gpnvm_set_usage_spec at argc = 2. -/
theorem gpnvm_set_usage_spec_wit :
    sam3x_cmd_gpnvm_set "Atmel SAM3X" 2 0 0 0 0 0 =
      (false, [], [OutEvent.usage]) :=
  gpnvm_set_usage_spec "Atmel SAM3X" 2 0 0 0 0 0 (by decide)

/-- C10: sam3x_cmd_gpnvm_get, and sam3x_cmd_gpnvm_set with exactly two user
arguments (argc = 3), return true for every possible sequencer result: the
result of the issued configuration-bit command (crG, cr1, cr2 - including
transport failure -1 or a nonzero error mask) never reaches the return
value; the result register EEFC_FRR is still read and its value printed. -/
theorem gpnvm_handlers_true_spec (driver : String) (bit value : Nat)
    (crG cr1 cr2 : Int) (frr frr2 : Nat) :
    sam3x_cmd_gpnvm_get driver crG frr =
      (true, [HwEvent.cmd (sam3x_flash_base driver) 0x0D 0,
              HwEvent.read32 (EEFC_FRR (sam3x_flash_base driver))],
       [OutEvent.gpnvm frr]) ∧
    sam3x_cmd_gpnvm_set driver 3 bit value cr1 cr2 frr2 =
      (true, [HwEvent.cmd (sam3x_flash_base driver)
                (if value ≠ 0 then 0x0B else 0x0C) (bit % 65536),
              HwEvent.cmd (sam3x_flash_base driver) 0x0D 0,
              HwEvent.read32 (EEFC_FRR (sam3x_flash_base driver))],
       [OutEvent.gpnvm frr2]) := by
  constructor
  · simp [sam3x_cmd_gpnvm_get]
  · simp [sam3x_cmd_gpnvm_set, sam3x_cmd_gpnvm_get]

/-- C6 counterexample: the claim says the write call returns the sequencer's
result directly, but when the sequencer reports the command-error mask 2
(EEFC_FSR_FCMDE), sam3x_flash_write returns -1, not 2: the source collapses
every nonzero sequencer result to -1. -/
theorem flash_write_result_cex :
    (sam3x_flash_write 0x400E0A00 0x400000 512 1 0x400000 512 2).1 = -1 ∧
    (sam3x_flash_write 0x400E0A00 0x400000 512 1 0x400000 512 2).1 ≠ 2 := by
  constructor
  · decide
  · decide

/-- C6 amended: for every call, the buffer is first transferred to dest via
the bulk memory write, then exactly one sequencer command is issued - the
region's write command with argument (dest - region.start) / buf_size
(truncated to 16 bits by the uint16_t parameter) - and the call returns 0
exactly when the sequencer returned 0, and -1 otherwise. -/
theorem flash_write_spec (base start bufSize writeCmd dest len : Nat)
    (cmdRes : Int) (h1 : start ≤ dest) (h2 : dest < 2 ^ 32) :
    sam3x_flash_write base start bufSize writeCmd dest len cmdRes =
      ((if cmdRes = 0 then 0 else -1),
       [HwEvent.memWrite dest len,
        HwEvent.cmd base writeCmd (((dest - start) / bufSize) % 65536)]) := by
  have hu : u32_sub dest start = dest - start := u32_sub_eq h1 h2
  by_cases hc : cmdRes = 0 <;> simp [sam3x_flash_write, hu, hc]

/-- Witness for flash_write_spec: a successful write of one 512-byte page. -/
theorem flash_write_spec_wit :
    sam3x_flash_write 0 0 512 1 512 512 0 =
      (0, [HwEvent.memWrite 512 512, HwEvent.cmd 0 1 1]) := by
  have h := flash_write_spec 0 0 512 1 512 512 0 (by decide) (by norm_num)
  simpa using h

/-- C5 counterexample: for a SAME70 chip id, if the sam_flash calloc inside
sam4_add_flash fails but the priv_storage calloc succeeds, samx7x_probe
still returns true although zero flash regions were registered - probe
success is not "at least one usable region was registered". -/
theorem probe_result_alloc_cex :
    (samx7x_probe 0x1000000 0 (fun n => n != 0)).ok = true ∧
    (samx7x_probe 0x1000000 0 (fun n => n != 0)).regions = [] := by
  constructor
  · decide
  · decide

/-- C5 amended: a resource-allocation failure while constructing one region
skips only that region and emits a diagnostic, but the probe result is
independent of how many regions were built: sam3x_probe reports success iff
one of the two identification registers matches its recognition table
(whatever the allocation outcomes), and samx7x_probe reports success iff the
architecture matches and the priv_storage allocation succeeds - a failed
region allocation does not fail the probe, and a probe can succeed with
zero regions registered. -/
theorem probe_result_alloc_spec (cidr1 cidr2 cidr exid : Nat)
    (al al2 : Nat → Bool) :
    ((sam3x_probe cidr1 cidr2 al).ok =
      (sam3xMatchX cidr1 || sam3xMatchNS cidr2 || sam3xMatchU cidr2 ||
        sam3xMatch4S cidr2)) ∧
    ((samx7x_probe cidr exid al2).ok = (samx7xArchMatch cidr && al2 1)) ∧
    (samx7xArchMatch cidr = true →
      (samx7x_probe cidr exid al2).regions =
        (if al2 0 then [(0x00400000, sam_flash_size cidr)] else []) ∧
      (samx7x_probe cidr exid al2).warnings =
        (if al2 0 then 0 else 1) + (if al2 1 then 0 else 1)) := by
  refine ⟨?_, ?_, ?_⟩
  · unfold sam3x_probe noProbe
    split_ifs <;> simp_all
  · unfold samx7x_probe noProbe
    split_ifs <;> simp_all
  · intro h
    unfold samx7x_probe
    rw [if_pos h]
    refine ⟨?_, rfl⟩
    simp [samx7x_parse_id]

/-- Witness for probe_result_alloc_spec: SAME70 with all allocations
succeeding registers exactly the single flash region. -/
theorem probe_result_alloc_spec_wit :
    (samx7x_probe 0x1000000 0 (fun _ => true)).regions =
      [(0x00400000, sam_flash_size 0x1000000)] := by
  have h :=
    ((probe_result_alloc_spec 0 0 0x1000000 0 (fun _ => true)
        (fun _ => true)).2.2 (by decide)).1
  simpa using h

/-- C8: when the (architecture, processor) combination of neither
identification register is in the recognition table, sam3x_probe returns
false with no flash region, no RAM region, no command table, no driver
label and no private storage - the probe leaves the session untouched; the
same holds for samx7x_probe when the architecture field is unrecognized. -/
theorem probe_unrecognized_spec (cidr1 cidr2 cidr exid : Nat)
    (al al2 : Nat → Bool)
    (h1 : sam3xMatchX cidr1 = false) (h2 : sam3xMatchNS cidr2 = false)
    (h3 : sam3xMatchU cidr2 = false) (h4 : sam3xMatch4S cidr2 = false)
    (h5 : samx7xArchMatch cidr = false) :
    sam3x_probe cidr1 cidr2 al = noProbe ∧
    samx7x_probe cidr exid al2 = noProbe := by
  constructor
  · unfold sam3x_probe
    simp [h1, h2, h3, h4]
  · unfold samx7x_probe
    simp [h5]

/-- Witness for probe_unrecognized_spec: all-zero identification registers
match nothing and both probes register nothing. -/
theorem probe_unrecognized_spec_wit :
    sam3x_probe 0 0 (fun _ => true) = noProbe ∧
    samx7x_probe 0 0 (fun _ => true) = noProbe :=
  probe_unrecognized_spec 0 0 0 0 (fun _ => true) (fun _ => true)
    (by decide) (by decide) (by decide) (by decide) (by decide)

/-- Peeling one erase command off the expected command list: the commands for
chunks chunk, chunk+8, ..., chunk+8m are the command for chunk followed by
the commands for chunk+8, ..., starting the index over. -/
theorem range_map_chunk_shift (base chunk m : Nat) :
    (List.range (m + 1)).map
        (fun i => HwEvent.cmd base 7 (((chunk + 8 * i) ||| 1) % 65536)) =
      HwEvent.cmd base 7 ((chunk ||| 1) % 65536) ::
        (List.range m).map
          (fun i => HwEvent.cmd base 7 (((chunk + 8 + 8 * i) ||| 1) % 65536)) := by
  rw [List.range_succ_eq_map, List.map_cons, List.map_map]
  refine congrArg₂ (· :: ·) ?_ ?_
  · norm_num
  · refine List.map_congr_left (fun i _ => ?_)
    have h8 : chunk + 8 * Nat.succ i = chunk + 8 + 8 * i := by omega
    simp only [Function.comp_apply, h8]

/-- Full characterization of the sam4 erase loop: with n = ceil(len / 4096)
iterations pending, if the first failing sequencer call is the k-th one, the
loop stops right after it having issued exactly the first k+1 page-erase
commands and returns -1; with no failing call it issues all n commands
(chunk advancing by 8 each time, each argument tagged with the low bit) and
returns 0. -/
theorem sam4_loop_characterization (base : Nat) :
    ∀ (len : Nat) (cmdRes : Nat → Int) (chunk : Nat),
    sam4_erase_loop cmdRes base chunk len =
      (match firstFail cmdRes ((len + 4095) / 4096) with
       | some k => ((-1 : Int), (List.range (k + 1)).map
           (fun i => HwEvent.cmd base 7 (((chunk + 8 * i) ||| 1) % 65536)))
       | none => ((0 : Int), (List.range ((len + 4095) / 4096)).map
           (fun i => HwEvent.cmd base 7 (((chunk + 8 * i) ||| 1) % 65536)))) := by
  intro len
  induction len using Nat.strong_induction_on with
  | _ len ih =>
    intro cmdRes chunk
    rw [sam4_erase_loop]
    by_cases h0 : len = 0
    · subst h0
      simp [firstFail]
    · rw [if_neg h0]
      dsimp only
      by_cases hc : cmdRes 0 = 0
      · rw [if_neg (by simp [hc])]
        have hn : (len + 4095) / 4096 = (len + 4095) / 4096 - 1 + 1 := by omega
        by_cases hl : 4096 < len
        · rw [if_pos hl]
          have ihr := ih (len - 4096) (by omega) (fun j => cmdRes (j + 1)) (chunk + 8)
          rw [ihr]
          have hm : (len + 4095) / 4096 = (len - 4096 + 4095) / 4096 + 1 := by omega
          rw [hm, firstFail]
          rw [if_neg (by simp [hc])]
          cases hff : firstFail (fun j => cmdRes (j + 1)) ((len - 4096 + 4095) / 4096) with
          | none => simp [hff, range_map_chunk_shift]
          | some k => simp [hff, range_map_chunk_shift]
        · rw [if_neg hl]
          have hn1 : (len + 4095) / 4096 = 1 := by omega
          rw [hn1, firstFail]
          rw [if_neg (by simp [hc])]
          simp [firstFail, List.range_succ]
      · rw [if_pos (by simp [hc])]
        have hn : (len + 4095) / 4096 = (len + 4095) / 4096 - 1 + 1 := by omega
        rw [hn, firstFail]
        rw [if_pos (by simp [hc])]
        simp [List.range_succ]

/-- C4: sam4_flash_erase starts from page index (addr - region.start) / 512;
one EPA (page-erase, opcode 0x07) command is issued per iteration while
length remains, its argument the current page index OR'd with the low-order
tag 0x1 selecting 8-page granularity (as a uint16_t); the remaining length
drops by one 4096-byte blocksize (or to zero on the last chunk, giving
ceil(len / 4096) iterations total) and the page index advances by 8 each
time; the first failing sequencer call (firstFail) aborts the loop at once -
the commands issued are exactly those up to and including the failing one -
and the call returns the failure result -1; with no failing call every
command is issued and 0 is returned. No other hardware access happens. -/
theorem sam4_flash_erase_spec (base start addr len : Nat) (cmdRes : Nat → Int)
    (h1 : start ≤ addr) (h2 : addr < 2 ^ 32) :
    sam4_flash_erase base start addr len cmdRes =
      (match firstFail cmdRes ((len + 4095) / 4096) with
       | some k => ((-1 : Int), (List.range (k + 1)).map
           (fun i => HwEvent.cmd base 7
             ((((addr - start) / 512 + 8 * i) ||| 1) % 65536)))
       | none => ((0 : Int), (List.range ((len + 4095) / 4096)).map
           (fun i => HwEvent.cmd base 7
             ((((addr - start) / 512 + 8 * i) ||| 1) % 65536)))) := by
  unfold sam4_flash_erase
  rw [u32_sub_eq h1 h2]
  exact sam4_loop_characterization base len cmdRes ((addr - start) / 512)

/-- Witness for sam4_flash_erase_spec: erasing one 4096-byte block at offset
512 with a sequencer that always succeeds issues exactly one EPA command
with argument 1 | 0x1 = 1 and returns 0. -/
theorem sam4_flash_erase_spec_wit :
    sam4_flash_erase 0 0 512 4096 (fun _ => 0) = (0, [HwEvent.cmd 0 7 1]) := by
  have h := sam4_flash_erase_spec 0 0 512 4096 (fun _ => 0) (by decide) (by norm_num)
  rw [h]
  decide

/-- C1 counterexample: a SAM3U chip id (arch 0x80, EPROC CM3) whose NVPSIZ
code decodes to 0x80000 (512 KiB) is probed successfully, yet the registered
regions are (0x80000, 0x80000) and (0x100000, 0x80000): their lengths sum to
0x100000, not to the decoded flash size 0x80000 - the source adds the fixed
512 KiB second bank whenever size >= 0x80000 without subtracting the first. -/
theorem probe_regions_sum_cex :
    (sam3x_probe 0 0x8000A60 (fun _ => true)).ok = true ∧
    sumLens (sam3x_probe 0 0x8000A60 (fun _ => true)).regions ≠
      sam_flash_size 0x8000A60 := by
  constructor
  · decide
  · decide

/-- C1 amended: for every successfully probed target with every allocation
succeeding, the registered flash regions, in registration order, are
contiguous (each region starts exactly where the previous one ends); their
base addresses are strictly ascending whenever the decoded flash size is
nonzero (a zero decode makes the two SAM3X banks coincide at 0x80000 with
length 0); and their lengths sum exactly to the decoded flash size on every
path except SAM3U, where the sum is min(size, 0x80000), plus a fixed
0x80000 second bank when size >= 0x80000 (so the sum matches the decoded
size only below 0x80000 or at exactly 0x100000). -/
theorem probe_regions_layout (cidr1 cidr2 cidr exid : Nat) :
    ((sam3x_probe cidr1 cidr2 (fun _ => true)).ok = true →
      contiguousB (sam3x_probe cidr1 cidr2 (fun _ => true)).regions = true ∧
      ((sam3x_probe cidr1 cidr2 (fun _ => true)).decodedSize ≠ 0 →
        strictAscB (sam3x_probe cidr1 cidr2 (fun _ => true)).regions = true) ∧
      sumLens (sam3x_probe cidr1 cidr2 (fun _ => true)).regions =
        (if !sam3xMatchX cidr1 && !sam3xMatchNS cidr2 && sam3xMatchU cidr2 then
          min (sam_flash_size cidr2) 0x80000 +
            (if 0x80000 ≤ sam_flash_size cidr2 then 0x80000 else 0)
        else (sam3x_probe cidr1 cidr2 (fun _ => true)).decodedSize)) ∧
    ((samx7x_probe cidr exid (fun _ => true)).ok = true →
      contiguousB (samx7x_probe cidr exid (fun _ => true)).regions = true ∧
      ((samx7x_probe cidr exid (fun _ => true)).decodedSize ≠ 0 →
        strictAscB (samx7x_probe cidr exid (fun _ => true)).regions = true) ∧
      sumLens (samx7x_probe cidr exid (fun _ => true)).regions =
        (samx7x_probe cidr exid (fun _ => true)).decodedSize) := by
  have hs1 := sam_flash_size_cases cidr1
  have hs2 := sam_flash_size_cases cidr2
  constructor
  · intro hok
    unfold sam3x_probe noProbe at hok ⊢
    by_cases hX : sam3xMatchX cidr1 = true
    · rw [if_pos hX] at hok ⊢
      simp only [hX, Bool.not_true, Bool.false_and, Bool.and_false, if_false]
      simp [contiguousB, strictAscB, sumLens]
      rcases hs1 with h|h|h|h|h|h|h|h|h|h <;> rw [h] <;> norm_num
    · rw [if_neg hX] at hok ⊢
      have hXf : sam3xMatchX cidr1 = false := by simpa using hX
      by_cases hNS : sam3xMatchNS cidr2 = true
      · rw [if_pos hNS] at hok ⊢
        simp only [hNS, Bool.not_true, Bool.false_and, Bool.and_false, if_false]
        simp [contiguousB, strictAscB, sumLens]
      · rw [if_neg hNS] at hok ⊢
        have hNSf : sam3xMatchNS cidr2 = false := by simpa using hNS
        by_cases hU : sam3xMatchU cidr2 = true
        · rw [if_pos hU] at hok ⊢
          simp only [hXf, hNSf, hU, Bool.not_false, Bool.true_and, Bool.and_true, if_true]
          rcases hs2 with h|h|h|h|h|h|h|h|h|h <;> rw [h] <;> decide
        · rw [if_neg hU] at hok ⊢
          by_cases h4 : sam3xMatch4S cidr2 = true
          · rw [if_pos h4] at hok ⊢
            simp only [hU, Bool.and_false, Bool.false_and, if_false]
            rcases hs2 with h|h|h|h|h|h|h|h|h|h <;> rw [h] <;> decide
          · rw [if_neg h4] at hok
            simp at hok
  · intro hok
    unfold samx7x_probe noProbe at hok ⊢
    by_cases hA : samx7xArchMatch cidr = true
    · rw [if_pos hA] at hok ⊢
      simp [contiguousB, strictAscB, sumLens]
    · rw [if_neg hA] at hok
      simp at hok

/-- Witness for probe_regions_layout: a SAM3X chip with 256 KiB flash gets
two contiguous, strictly ascending 128 KiB banks summing to the decode. -/
theorem probe_regions_layout_wit :
    contiguousB (sam3x_probe 0x8400960 0 (fun _ => true)).regions = true ∧
    strictAscB (sam3x_probe 0x8400960 0 (fun _ => true)).regions = true ∧
    sumLens (sam3x_probe 0x8400960 0 (fun _ => true)).regions =
      (sam3x_probe 0x8400960 0 (fun _ => true)).decodedSize := by
  have h := (probe_regions_layout 0x8400960 0 0 0).1 (by decide)
  refine ⟨h.1, h.2.1 (by decide), ?_⟩
  have h3 := h.2.2
  rw [if_neg (by decide)] at h3
  exact h3
